import Mathlib

/-!
Shallow embedding of the screenshot-beautifier application
(src/screenshot-beautifier/src/App.tsx) for checking its natural-language
specification.  JavaScript numbers are modelled as exact rationals, strings
as Lean strings (the inputs of interest are ASCII), and the component-local
React state as an explicit record that the event handlers transform.
-/

namespace SSBeautify

/-- Source: `type BackgroundType = 'gradient' | 'solid'`. -/
inductive BackgroundType where
  | gradient
  | solid
  deriving DecidableEq, Repr

/-- Source: `interface Settings` (App.tsx lines 8-21).  Numeric fields are
exact rationals; colors are hex strings carried verbatim. -/
structure Settings where
  borderRadius : ℚ
  padding : ℚ
  dropShadow : ℚ
  backgroundType : BackgroundType
  gradientFrom : String
  gradientTo : String
  gradientAngle : ℚ
  backgroundColor : String
  showWindowChrome : Bool
  windowAccent : String
  noise : ℚ
  vignette : ℚ
  deriving DecidableEq, Repr

/-- Source: `const DEFAULT_SETTINGS: Settings = { ... }` (lines 231-244). -/
def DEFAULT_SETTINGS : Settings :=
  { borderRadius := 36
    padding := 72
    dropShadow := 65
    backgroundType := .gradient
    gradientFrom := "#60a5fa"
    gradientTo := "#a855f7"
    gradientAngle := 135
    backgroundColor := "#0f172a"
    showWindowChrome := true
    windowAccent := "#22d3ee"
    noise := 12
    vignette := 40 }

/-- The component-local React state of `App` (lines 247-252), plus
`hasPreview` standing for `previewRef.current` being non-null. -/
structure AppState where
  imageDataUrl : Option String
  imageName : String
  settings : Settings
  isDragging : Bool
  isExporting : Bool
  exportScale : Nat
  hasPreview : Bool
  deriving DecidableEq, Repr

/-- Source: `const resetSettings = () => { setSettings({ ...DEFAULT_SETTINGS }) }`
(lines 309-311).  Only the `settings` state cell is written. -/
def resetSettings (s : AppState) : AppState :=
  { s with settings := DEFAULT_SETTINGS }

/-- JavaScript `Math.round`: round half toward positive infinity,
i.e. `Math.round x = Math.floor (x + 0.5)`. -/
def jsRound (x : ℚ) : ℤ :=
  ⌊x + 1 / 2⌋

/-- Result of the `dropShadowCss` memo: either the CSS string literal
`none` or the shadow parameters interpolated into the `box-shadow` value
`0 {offsetY}px {blur}px {spread}px rgba(8, 15, 35, {opacity})`. -/
inductive ShadowCss where
  | none
  | shadow (offsetY blur spread : ℤ) (opacity : ℚ)
  deriving DecidableEq, Repr

/-- Source: the `dropShadowCss` memo (lines 348-358):
`if (settings.dropShadow <= 1) return 'none'` ; otherwise
`intensity = dropShadow / 100`, `blur = 40 + intensity * 140`,
`spread = -40 - intensity * 25`, `offsetY = 24 + intensity * 48`,
`opacity = Math.min(0.25 + intensity * 0.4, 0.6)`, with the three pixel
values passed through `Math.round` and the opacity kept unrounded. -/
def dropShadowCss (dropShadow : ℚ) : ShadowCss :=
  if dropShadow ≤ 1 then
    .none
  else
    let intensity := dropShadow / 100
    let blur := 40 + intensity * 140
    let spread := -40 - intensity * 25
    let offsetY := 24 + intensity * 48
    let opacity := min (0.25 + intensity * 0.4) 0.6
    .shadow (jsRound offsetY) (jsRound blur) (jsRound spread) opacity

/-- Source: `noiseOpacity` memo (line 360):
`Math.min(settings.noise / 100 * 0.35, 0.3)`. -/
def noiseOpacity (noise : ℚ) : ℚ :=
  min (noise / 100 * 0.35) 0.3

/-- Source: `vignetteOpacity` memo (lines 361-364):
`Math.min(settings.vignette / 100 * 0.9, 0.85)`. -/
def vignetteOpacity (vignette : ℚ) : ℚ :=
  min (vignette / 100 * 0.9) 0.85

/-- Result of the `canvasBackground` memo: either the flat background
color or a `linear-gradient(angle, from, to)` descriptor. -/
inductive CanvasBackground where
  | solidColor (color : String)
  | linearGradient (angle : ℚ) (colorFrom colorTo : String)
  deriving DecidableEq, Repr

/-- Source: `canvasBackground` memo (lines 341-346). -/
def canvasBackground (s : Settings) : CanvasBackground :=
  if s.backgroundType = .solid then
    .solidColor s.backgroundColor
  else
    .linearGradient s.gradientAngle s.gradientFrom s.gradientTo

/-- An entry of `const gradientPresets` (lines 36-41).  The source fields
named `from` and `to` are Lean keywords and are rendered `fromColor` and
`toColor`. -/
structure GradientPreset where
  id : String
  label : String
  fromColor : String
  toColor : String
  angle : ℚ
  deriving DecidableEq, Repr

/-- Source: `const gradientPresets = [ ... ]` (lines 36-41). -/
def gradientPresets : List GradientPreset :=
  [ { id := "aurora", label := "Aurora", fromColor := "#60a5fa", toColor := "#a855f7", angle := 130 }
  , { id := "sunset", label := "Sunset", fromColor := "#fb7185", toColor := "#f97316", angle := 140 }
  , { id := "mint", label := "Mint", fromColor := "#22d3ee", toColor := "#34d399", angle := 125 }
  , { id := "midnight", label := "Midnight", fromColor := "#1d4ed8", toColor := "#0f172a", angle := 150 } ]

/-- An entry of `const solidPresets` (lines 43-48). -/
structure SolidPreset where
  id : String
  label : String
  color : String
  deriving DecidableEq, Repr

/-- Source: `const solidPresets = [ ... ]` (lines 43-48). -/
def solidPresets : List SolidPreset :=
  [ { id := "obsidian", label := "Obsidian", color := "#0f172a" }
  , { id := "slate", label := "Slate", color := "#1f2937" }
  , { id := "ocean", label := "Ocean", color := "#082f49" }
  , { id := "ice", label := "Ice", color := "#e0f2fe" } ]

/-- Source: the gradient `PresetSwatch` click handler (lines 665-673):
`setSettings(previous => ({ ...previous, backgroundType: 'gradient',
gradientFrom: preset.from, gradientTo: preset.to, gradientAngle: preset.angle }))`.
A single functional state update, so the four fields change together. -/
def applyGradientPreset (preset : GradientPreset) (s : Settings) : Settings :=
  { s with
      backgroundType := .gradient
      gradientFrom := preset.fromColor
      gradientTo := preset.toColor
      gradientAngle := preset.angle }

/-- Source: the solid `PresetSwatch` click handler (lines 696-702):
`setSettings(previous => ({ ...previous, backgroundType: 'solid',
backgroundColor: preset.color }))`. -/
def applySolidPreset (preset : SolidPreset) (s : Settings) : Settings :=
  { s with
      backgroundType := .solid
      backgroundColor := preset.color }

/-- A file handed to ingestion: its `name` and declared media `type`. -/
structure IngestFile where
  name : String
  type : String
  deriving DecidableEq, Repr

/-- Source: `file.name.replace(/\.[^/.]+$/, '')` (line 267): strip a
trailing dot-extension, where the extension is one or more characters
none of which is a dot or a slash. -/
def stripExtension (name : String) : String :=
  let rev := name.data.reverse
  let ext := rev.takeWhile (fun c => !(c = '.' || c = '/'))
  match rev.drop ext.length with
  | '.' :: rest => if ext.isEmpty then name else ⟨rest.reverse⟩
  | _ => name

/-- `String.startsWith`, computed on the underlying character lists. -/
def strStartsWith (s pat : String) : Bool :=
  pat.data.isPrefixOf s.data

/-- Source: `readFile` (lines 261-271).  A file whose declared media type
does not start with `image/` is dropped before any state is touched;
otherwise the decoded data URL (supplied by the `FileReader`, modelled as
the argument `decodedDataUrl`) replaces the loaded image and the display
name becomes the extension-stripped file name, falling back to
`Screenshot` when that is empty. -/
def readFile (file : IngestFile) (decodedDataUrl : String) (s : AppState) : AppState :=
  if strStartsWith file.type "image/" then
    let friendlyName := stripExtension file.name
    { s with
        imageDataUrl := some decodedDataUrl
        imageName := if friendlyName = "" then "Screenshot" else friendlyName }
  else
    s

/-- Source: the hidden file input `accept` attribute (line 373). -/
def acceptAttribute : String :=
  "image/png,image/jpeg,image/webp,image/svg+xml"

/-- Split a character list at commas, as `String.splitOn ","` does. -/
def splitCommaAux (acc : List Char) : List Char → List (List Char)
  | [] => [acc.reverse]
  | c :: rest =>
    if c = ',' then acc.reverse :: splitCommaAux [] rest
    else splitCommaAux (c :: acc) rest

/-- The individual media types listed by `acceptAttribute`. -/
def acceptedMediaTypes : List String :=
  (splitCommaAux [] acceptAttribute.data).map fun l => ⟨l⟩

/-- Whether a character survives the sanitizer verbatim, i.e. matches
`[a-z0-9]` after lowercasing. -/
def isLowerAlnum (c : Char) : Bool :=
  ('a' ≤ c && c ≤ 'z') || ('0' ≤ c && c ≤ '9')

/-- Source: `.replace(/[^a-z0-9]+/g, '-')` (line 326): every maximal run
of characters outside `[a-z0-9]` becomes a single hyphen.  The flag
`inRun` records whether the previous character belonged to such a run. -/
def collapseRuns (inRun : Bool) : List Char → List Char
  | [] => []
  | c :: rest =>
    if isLowerAlnum c then c :: collapseRuns false rest
    else if inRun then collapseRuns true rest
    else '-' :: collapseRuns true rest

/-- One leading hyphen removed, if present. -/
def dropOneLeadingHyphen : List Char → List Char
  | [] => []
  | c :: rest => if c = '-' then rest else c :: rest

/-- One trailing hyphen removed, if present. -/
def dropOneTrailingHyphen (l : List Char) : List Char :=
  (dropOneLeadingHyphen l.reverse).reverse

/-- Source: the `safeName` computation of `handleExport` (lines 324-327):
`imageName.toLowerCase().replace(/[^a-z0-9]+/g, '-').replace(/(^-|-$)/g, '')`.
The second regex removes at most one hyphen at the start and at most one
at the end of the string. -/
def sanitizeName (name : String) : String :=
  ⟨dropOneTrailingHyphen (dropOneLeadingHyphen (collapseRuns false (name.data.map Char.toLower)))⟩

/-- Source: `new Date().toISOString().replace(/[:.]/g, '-')` (line 328),
applied to the ISO-8601 string supplied by the clock. -/
def timestampSlug (isoNow : String) : String :=
  ⟨isoNow.data.map fun c => if c = ':' || c = '.' then '-' else c⟩

/-- Source: `link.download` (line 330):
`${safeName || 'screenshot'}-${exportScale}x-${timestamp}.png`. -/
def exportFilename (imageName : String) (exportScale : Nat) (isoNow : String) : String :=
  let safeName := sanitizeName imageName
  (if safeName = "" then "screenshot" else safeName)
    ++ "-" ++ toString exportScale ++ "x-" ++ timestampSlug isoNow ++ ".png"

/-- Outcome of the synchronous prefix of `handleExport` (lines 313-323):
either the missing-image guard fires, or `isExporting` is set and the
`toPng` snapshot is started. -/
inductive ExportBegin where
  | precondFailed (alertMessage : String)
  | snapshotStarted
  deriving DecidableEq, Repr

/-- Source: `handleExport` up to the `toPng` call (lines 313-323).  The
guard tests only `previewRef.current` and `imageDataUrl`; it does not
consult `isExporting`. -/
def handleExportBegin (s : AppState) : AppState × ExportBegin :=
  if !s.hasPreview || s.imageDataUrl.isNone then
    (s, .precondFailed "Upload a screenshot before exporting.")
  else
    ({ s with isExporting := true }, .snapshotStarted)

/-- Outcome of a whole `handleExport` run: the precondition guard fired,
a file with the generated name was downloaded, or the snapshot failed. -/
inductive ExportResult where
  | precondFailed (alertMessage : String)
  | exported (filename dataUrl : String)
  | exportFailed (alertMessage : String)
  deriving DecidableEq, Repr

/-- Source: a complete run of `handleExport` (lines 313-339).  The
`toPng` snapshot is an external effect, modelled by the `snapshot`
argument carrying its resolution or rejection; `isoNow` is the clock
reading used for the timestamp.  The `finally` block clears
`isExporting` on both the success and the failure path. -/
def handleExportRun (s : AppState) (snapshot : Except String String)
    (isoNow : String) : AppState × ExportResult :=
  match handleExportBegin s with
  | (s1, .precondFailed msg) => (s1, .precondFailed msg)
  | (s1, .snapshotStarted) =>
    match snapshot with
    | .ok dataUrl =>
        ({ s1 with isExporting := false },
          .exported (exportFilename s.imageName s.exportScale isoNow) dataUrl)
    | .error _ =>
        ({ s1 with isExporting := false },
          .exportFailed "Export failed. Please try again or lower the export size.")

/-- Source: the export button `disabled` attribute (line 751):
`disabled={!imageDataUrl || isExporting}`. -/
def exportButtonDisabled (s : AppState) : Bool :=
  s.imageDataUrl.isNone || s.isExporting

/-- The initial component state (lines 247-252), with the preview node
mounted. -/
def initialAppState : AppState :=
  { imageDataUrl := none
    imageName := "Screenshot"
    settings := DEFAULT_SETTINGS
    isDragging := false
    isExporting := false
    exportScale := 2
    hasPreview := true }

/-- A state in which an image is loaded and an export is in flight:
`initialAppState` after an ingestion and the synchronous prefix of a
first `handleExport` call. -/
def exportBusyState : AppState :=
  { initialAppState with
      imageDataUrl := some "data:image/png;base64,abc"
      isExporting := true }

/-- Restatement of the sanitizer from the wording of the specification:
lowercase, replace every run of non-alphanumeric characters with a single
hyphen, then trim all leading and all trailing hyphens. -/
def specSanitizeName (name : String) : String :=
  ⟨((((collapseRuns false (name.data.map Char.toLower)).dropWhile
      fun c => c == '-').reverse.dropWhile fun c => c == '-')).reverse⟩

/-- Restatement of the export filename scheme from the wording of the
specification: `{sanitized display name}-{scaleMultiplier}x-{timestamp}.png`
with the `screenshot` fallback for an empty sanitized segment. -/
def specExportFilename (displayName : String) (scale : Nat) (isoNow : String) : String :=
  let seg := specSanitizeName displayName
  (if seg = "" then "screenshot" else seg)
    ++ "-" ++ toString scale ++ "x-" ++ timestampSlug isoNow ++ ".png"

/-- Two adjacent characters are not both hyphens. -/
def NoHyphenPair (a b : Char) : Prop :=
  ¬(a = '-' ∧ b = '-')

lemma ne_hyphen_of_isLowerAlnum {c : Char} (h : isLowerAlnum c = true) : c ≠ '-' := by
  intro hc
  subst hc
  revert h
  decide

lemma head_collapseRuns_true (l : List Char) :
    ∀ c, (collapseRuns true l).head? = some c → c ≠ '-' := by
  induction l with
  | nil =>
    intro c h
    simp [collapseRuns] at h
  | cons a rest ih =>
    intro c h
    by_cases ha : isLowerAlnum a = true
    · simp [collapseRuns, ha] at h
      exact h ▸ ne_hyphen_of_isLowerAlnum ha
    · simp only [collapseRuns, ha, if_false, if_true, Bool.false_eq_true] at h
      exact ih c h

lemma chain_collapseRuns (b : Bool) (l : List Char) :
    List.Chain' NoHyphenPair (collapseRuns b l) := by
  induction l generalizing b with
  | nil => simp [collapseRuns]
  | cons a rest ih =>
    by_cases ha : isLowerAlnum a = true
    · simp only [collapseRuns, ha, if_true]
      refine List.chain'_cons'.mpr ⟨?_, ih false⟩
      intro y _ hc
      exact ne_hyphen_of_isLowerAlnum ha hc.1
    · cases b with
      | true =>
        simp only [collapseRuns, ha, Bool.false_eq_true, if_false, if_true]
        exact ih true
      | false =>
        simp only [collapseRuns, ha, Bool.false_eq_true, if_false]
        refine List.chain'_cons'.mpr ⟨?_, ih true⟩
        intro y hy hc
        exact head_collapseRuns_true rest y hy hc.2

lemma dropWhile_hyphen_eq_self {t : List Char}
    (hh : ∀ c, t.head? = some c → c ≠ '-') :
    t.dropWhile (fun c => c == '-') = t := by
  cases t with
  | nil => rfl
  | cons b r =>
    have hb : b ≠ '-' := hh b rfl
    simp [List.dropWhile_cons, hb]

lemma dropOneLeadingHyphen_eq {l : List Char} (h : List.Chain' NoHyphenPair l) :
    dropOneLeadingHyphen l = l.dropWhile (fun c => c == '-') := by
  cases l with
  | nil => rfl
  | cons a t =>
    by_cases ha : a = '-'
    · subst ha
      simp only [dropOneLeadingHyphen, if_pos rfl, List.dropWhile_cons]
      have ht : t.dropWhile (fun c => c == '-') = t := by
        refine dropWhile_hyphen_eq_self ?_
        intro c hc hcEq
        subst hcEq
        cases t with
        | nil => simp at hc
        | cons b r =>
          have hb : b = '-' := by simpa using hc
          exact (List.chain'_cons.mp h).1 ⟨rfl, hb⟩
      simp [ht]
    · simp [dropOneLeadingHyphen, ha, List.dropWhile_cons]

lemma chain_dropOneLeadingHyphen {l : List Char} (h : List.Chain' NoHyphenPair l) :
    List.Chain' NoHyphenPair (dropOneLeadingHyphen l) := by
  cases l with
  | nil => exact h
  | cons a t =>
    by_cases ha : a = '-'
    · simpa [dropOneLeadingHyphen, ha] using h.tail
    · simpa [dropOneLeadingHyphen, ha] using h

lemma chain_reverse_of {l : List Char} (h : List.Chain' NoHyphenPair l) :
    List.Chain' NoHyphenPair l.reverse := by
  rw [List.chain'_reverse]
  exact h.imp fun a b hab hc => hab ⟨hc.2, hc.1⟩

lemma sanitizeName_eq_spec (name : String) :
    sanitizeName name = specSanitizeName name := by
  unfold sanitizeName specSanitizeName
  apply congrArg String.mk
  have h1 : List.Chain' NoHyphenPair (collapseRuns false (name.data.map Char.toLower)) :=
    chain_collapseRuns false _
  have h2 : List.Chain' NoHyphenPair
      (dropOneLeadingHyphen (collapseRuns false (name.data.map Char.toLower))) :=
    chain_dropOneLeadingHyphen h1
  have h3 : List.Chain' NoHyphenPair
      (dropOneLeadingHyphen (collapseRuns false (name.data.map Char.toLower))).reverse :=
    chain_reverse_of h2
  calc dropOneTrailingHyphen (dropOneLeadingHyphen (collapseRuns false (name.data.map Char.toLower)))
      = (dropOneLeadingHyphen
          (dropOneLeadingHyphen (collapseRuns false (name.data.map Char.toLower))).reverse).reverse := rfl
    _ = ((dropOneLeadingHyphen (collapseRuns false (name.data.map Char.toLower))).reverse.dropWhile
          (fun c => c == '-')).reverse := by rw [dropOneLeadingHyphen_eq h3]
    _ = (((collapseRuns false (name.data.map Char.toLower)).dropWhile
          (fun c => c == '-')).reverse.dropWhile (fun c => c == '-')).reverse := by
        rw [dropOneLeadingHyphen_eq h1]

/-- C1: for every settings record the shadow descriptor is the no-shadow
sentinel when dropShadow is at most 1; otherwise, with
intensity = dropShadow / 100, it carries blur = 40 + intensity * 140,
spread = -(40 + intensity * 25), offsetY = 24 + intensity * 48 (each put
through Math.round) and opacity = min(0.25 + intensity * 0.4, 0.6) kept
as a rational; at dropShadow = 100 the outputs are blur 180, spread -65,
offsetY 72 and opacity 0.6. -/
theorem shadow_descriptor_spec (s : Settings) :
    (s.dropShadow ≤ 1 → dropShadowCss s.dropShadow = ShadowCss.none) ∧
    (1 < s.dropShadow →
      dropShadowCss s.dropShadow =
        ShadowCss.shadow (jsRound (24 + s.dropShadow / 100 * 48))
          (jsRound (40 + s.dropShadow / 100 * 140))
          (jsRound (-(40 + s.dropShadow / 100 * 25)))
          (min (0.25 + s.dropShadow / 100 * 0.4) 0.6)) ∧
    dropShadowCss 100 = ShadowCss.shadow 72 180 (-65) 0.6 := by
  refine ⟨fun h => ?_, fun h => ?_, ?_⟩
  · simp [dropShadowCss, h]
  · have hn : ¬ s.dropShadow ≤ 1 := not_le.mpr h
    have harg : (-40 - s.dropShadow / 100 * 25 : ℚ) = -(40 + s.dropShadow / 100 * 25) := by
      ring
    simp only [dropShadowCss, hn, if_false]
    rw [harg]
  · norm_num [dropShadowCss, jsRound, min_def]

/-- Witness for C1: the sentinel branch at dropShadow = 1 and the shadow
branch at the default settings (dropShadow = 65) and at 100. -/
theorem shadow_descriptor_spec_witness :
    dropShadowCss 1 = ShadowCss.none ∧
    dropShadowCss DEFAULT_SETTINGS.dropShadow =
      ShadowCss.shadow (jsRound (24 + DEFAULT_SETTINGS.dropShadow / 100 * 48))
        (jsRound (40 + DEFAULT_SETTINGS.dropShadow / 100 * 140))
        (jsRound (-(40 + DEFAULT_SETTINGS.dropShadow / 100 * 25)))
        (min (0.25 + DEFAULT_SETTINGS.dropShadow / 100 * 0.4) 0.6) ∧
    dropShadowCss 100 = ShadowCss.shadow 72 180 (-65) 0.6 :=
  ⟨(shadow_descriptor_spec { DEFAULT_SETTINGS with dropShadow := 1 }).1 le_rfl,
   (shadow_descriptor_spec DEFAULT_SETTINGS).2.1 (by decide),
   (shadow_descriptor_spec DEFAULT_SETTINGS).2.2⟩

/-- C2, counterexample: with an image loaded and an export already in
flight (isExporting = true), a second call of handleExport still reaches
the snapshot step instead of being rejected or queued, because the guard
in handleExport never consults isExporting. -/
theorem export_single_flight_violated :
    exportBusyState.isExporting = true ∧
    handleExportBegin exportBusyState = (exportBusyState, ExportBegin.snapshotStarted) := by
  exact ⟨rfl, by decide⟩

/-- C2, amended: the in-flight guard exists only at the UI layer, where
the export button is disabled whenever isExporting is set; the
handleExport function itself starts a snapshot whenever the preview node
exists and an image is loaded, regardless of isExporting, so programmatic
concurrent calls are not serialized. -/
theorem export_guard_ui_only (s : AppState) :
    (s.isExporting = true → exportButtonDisabled s = true) ∧
    (s.hasPreview = true → ∀ url, s.imageDataUrl = some url →
      (handleExportBegin s).2 = ExportBegin.snapshotStarted) := by
  constructor
  · intro h
    simp [exportButtonDisabled, h]
  · intro hp url hurl
    simp [handleExportBegin, hp, hurl]

/-- Witness for the amended C2, at the busy state. -/
theorem export_guard_ui_only_witness :
    exportButtonDisabled exportBusyState = true ∧
    (handleExportBegin exportBusyState).2 = ExportBegin.snapshotStarted :=
  ⟨(export_guard_ui_only exportBusyState).1 rfl,
   (export_guard_ui_only exportBusyState).2 rfl "data:image/png;base64,abc" rfl⟩

/-- C3: for every scale multiplier in one, two, three, exporting with no
image loaded fails with the precondition alert, leaves the state
untouched, and never reaches the snapshot step, so no file is
produced. -/
theorem export_no_image_precondition (s : AppState) (snapshot : Except String String)
    (isoNow : String) (himg : s.imageDataUrl = none)
    (_hscale : s.exportScale = 1 ∨ s.exportScale = 2 ∨ s.exportScale = 3) :
    handleExportRun s snapshot isoNow =
      (s, ExportResult.precondFailed "Upload a screenshot before exporting.") ∧
    (handleExportBegin s).2 ≠ ExportBegin.snapshotStarted ∧
    ∀ filename dataUrl,
      (handleExportRun s snapshot isoNow).2 ≠ ExportResult.exported filename dataUrl := by
  have hb : handleExportBegin s =
      (s, ExportBegin.precondFailed "Upload a screenshot before exporting.") := by
    simp [handleExportBegin, himg]
  refine ⟨?_, ?_, ?_⟩
  · simp [handleExportRun, hb]
  · rw [hb]
    simp
  · intro filename dataUrl
    simp [handleExportRun, hb]

/-- Witness for C3: the initial state (no image, scale 2). -/
theorem export_no_image_precondition_witness :
    handleExportRun initialAppState (Except.ok "snap") "2025-01-02T03:04:05.678Z" =
      (initialAppState, ExportResult.precondFailed "Upload a screenshot before exporting.") :=
  (export_no_image_precondition initialAppState (Except.ok "snap") "2025-01-02T03:04:05.678Z"
    rfl (Or.inr (Or.inl rfl))).1

/-- C4: a file whose declared media type does not begin with image/ is
rejected silently: the whole state, and in particular the settings, the
bitmap reference and the display name, are unchanged. -/
theorem ingest_non_image_no_state_change (file : IngestFile) (decodedDataUrl : String)
    (s : AppState) (h : strStartsWith file.type "image/" = false) :
    readFile file decodedDataUrl s = s ∧
    (readFile file decodedDataUrl s).settings = s.settings ∧
    (readFile file decodedDataUrl s).imageDataUrl = s.imageDataUrl ∧
    (readFile file decodedDataUrl s).imageName = s.imageName := by
  have he : readFile file decodedDataUrl s = s := by simp [readFile, h]
  exact ⟨he, by rw [he], by rw [he], by rw [he]⟩

/-- Witness for C4: a text/plain file against the initial state. -/
theorem ingest_non_image_no_state_change_witness :
    readFile ⟨"notes.txt", "text/plain"⟩ "data:text/plain;base64,x" initialAppState
      = initialAppState :=
  (ingest_non_image_no_state_change ⟨"notes.txt", "text/plain"⟩ "data:text/plain;base64,x"
    initialAppState (by decide)).1

/-- C5: the exported filename is the sanitized display name, the scale
with an x, and the colon-and-dot-slugged timestamp, joined by hyphens
with a png extension; sanitization lowercases, collapses runs of
non-alphanumerics to single hyphens, trims edge hyphens and falls back to
screenshot when empty.  The spec-worded sanitizer agrees with the code on
every input, and the listed concrete examples hold. -/
theorem export_filename_scheme :
    (∀ (displayName : String) (scale : Nat) (isoNow : String),
      exportFilename displayName scale isoNow = specExportFilename displayName scale isoNow) ∧
    sanitizeName "My Screenshot #1!" = "my-screenshot-1" ∧
    exportFilename "My Screenshot #1!" 2 "2025-01-02T03:04:05.678Z" =
      "my-screenshot-1-2x-2025-01-02T03-04-05-678Z.png" ∧
    exportFilename "!!!" 3 "2025-01-02T03:04:05.678Z" =
      "screenshot-3x-2025-01-02T03-04-05-678Z.png" := by
  refine ⟨?_, by decide, by decide, by decide⟩
  intro displayName scale isoNow
  simp only [exportFilename, specExportFilename]
  rw [sanitizeName_eq_spec]

/-- C6: applying a gradient preset sets the background type and the three
gradient fields in one functional update and leaves every other settings
field unchanged; applying a solid preset sets the background type and
color and leaves every other field unchanged. -/
theorem preset_click_atomic (s : Settings) (gp : GradientPreset) (sp : SolidPreset) :
    (applyGradientPreset gp s).backgroundType = BackgroundType.gradient ∧
    (applyGradientPreset gp s).gradientFrom = gp.fromColor ∧
    (applyGradientPreset gp s).gradientTo = gp.toColor ∧
    (applyGradientPreset gp s).gradientAngle = gp.angle ∧
    (applyGradientPreset gp s).borderRadius = s.borderRadius ∧
    (applyGradientPreset gp s).padding = s.padding ∧
    (applyGradientPreset gp s).dropShadow = s.dropShadow ∧
    (applyGradientPreset gp s).backgroundColor = s.backgroundColor ∧
    (applyGradientPreset gp s).showWindowChrome = s.showWindowChrome ∧
    (applyGradientPreset gp s).windowAccent = s.windowAccent ∧
    (applyGradientPreset gp s).noise = s.noise ∧
    (applyGradientPreset gp s).vignette = s.vignette ∧
    (applySolidPreset sp s).backgroundType = BackgroundType.solid ∧
    (applySolidPreset sp s).backgroundColor = sp.color ∧
    (applySolidPreset sp s).borderRadius = s.borderRadius ∧
    (applySolidPreset sp s).padding = s.padding ∧
    (applySolidPreset sp s).dropShadow = s.dropShadow ∧
    (applySolidPreset sp s).gradientFrom = s.gradientFrom ∧
    (applySolidPreset sp s).gradientTo = s.gradientTo ∧
    (applySolidPreset sp s).gradientAngle = s.gradientAngle ∧
    (applySolidPreset sp s).showWindowChrome = s.showWindowChrome ∧
    (applySolidPreset sp s).windowAccent = s.windowAccent ∧
    (applySolidPreset sp s).noise = s.noise ∧
    (applySolidPreset sp s).vignette = s.vignette :=
  ⟨rfl, rfl, rfl, rfl, rfl, rfl, rfl, rfl, rfl, rfl, rfl, rfl,
   rfl, rfl, rfl, rfl, rfl, rfl, rfl, rfl, rfl, rfl, rfl, rfl⟩

/-- C7: for noise in the range zero to one hundred, noiseOpacity equals
noise times 0.0035 capped at 0.3, and the cap is attained whenever noise
is at least 0.3 / 0.0035. -/
theorem noiseOpacity_formula (noise : ℚ) (_h0 : 0 ≤ noise) (_h100 : noise ≤ 100) :
    noiseOpacity noise = min (noise * 0.0035) 0.3 ∧
    (0.3 / 0.0035 ≤ noise → noiseOpacity noise = 0.3) := by
  constructor
  · unfold noiseOpacity
    congr 1
    ring
  · intro hc
    unfold noiseOpacity
    rw [min_eq_right (by nlinarith : (0.3 : ℚ) ≤ noise / 100 * 0.35)]

/-- Witness for C7: noise = 90 is past the cap. -/
theorem noiseOpacity_formula_witness :
    noiseOpacity 90 = min (90 * 0.0035) 0.3 ∧ noiseOpacity 90 = 0.3 := by
  have h := noiseOpacity_formula 90 (by decide) (by decide)
  exact ⟨h.1, h.2 (by norm_num)⟩

/-- C8: resetting the styling yields a settings record equal to the
default constant, whatever the prior state was. -/
theorem reset_yields_default_settings (s : AppState) :
    (resetSettings s).settings = DEFAULT_SETTINGS :=
  rfl

/-- C9, counterexample: image/gif is not among the four media types of
the accept attribute, yet ingesting an image/gif file is not ignored: it
replaces the loaded image.  The accept list therefore does not bound what
the input surface accepts. -/
theorem accepted_types_not_exact :
    "image/gif" ∉ acceptedMediaTypes ∧
    readFile ⟨"anim.gif", "image/gif"⟩ "data:image/gif;base64,R0lGOD" initialAppState
      ≠ initialAppState ∧
    (readFile ⟨"anim.gif", "image/gif"⟩ "data:image/gif;base64,R0lGOD" initialAppState).imageDataUrl
      = some "data:image/gif;base64,R0lGOD" := by
  refine ⟨by decide, by decide, by decide⟩

/-- C9, amended: the file dialog accept attribute lists exactly
image/png, image/jpeg, image/webp and image/svg+xml, but ingestion, which
both the dialog and drag-and-drop share, accepts every file whose media
type begins with image/ (the decoded data URL replaces the loaded image,
the display name becomes the extension-stripped file name, the settings
stay untouched); only files whose media type does not begin with image/
are silently ignored with no state change. -/
theorem accept_attribute_image_prefix_rule :
    acceptedMediaTypes = ["image/png", "image/jpeg", "image/webp", "image/svg+xml"] ∧
    (∀ (file : IngestFile) (decodedDataUrl : String) (s : AppState),
      strStartsWith file.type "image/" = true →
        (readFile file decodedDataUrl s).imageDataUrl = some decodedDataUrl ∧
        (readFile file decodedDataUrl s).imageName =
          (if stripExtension file.name = "" then "Screenshot" else stripExtension file.name) ∧
        (readFile file decodedDataUrl s).settings = s.settings) ∧
    ∀ (file : IngestFile) (decodedDataUrl : String) (s : AppState),
      strStartsWith file.type "image/" = false → readFile file decodedDataUrl s = s := by
  refine ⟨by decide, ?_, ?_⟩
  · intro file decodedDataUrl s h
    refine ⟨?_, ?_, ?_⟩ <;> simp [readFile, h]
  · intro file decodedDataUrl s h
    simp [readFile, h]

/-- Witness for the amended C9: an image/gif file is accepted (the image
and name cells are rewritten, the settings kept) and an application/pdf
file is ignored. -/
theorem accept_attribute_image_prefix_rule_witness :
    ((readFile ⟨"anim.gif", "image/gif"⟩ "data:image/gif;base64,R0lGOD" initialAppState).imageDataUrl
        = some "data:image/gif;base64,R0lGOD" ∧
      (readFile ⟨"anim.gif", "image/gif"⟩ "data:image/gif;base64,R0lGOD" initialAppState).imageName
        = (if stripExtension "anim.gif" = "" then "Screenshot" else stripExtension "anim.gif") ∧
      (readFile ⟨"anim.gif", "image/gif"⟩ "data:image/gif;base64,R0lGOD" initialAppState).settings
        = initialAppState.settings) ∧
    readFile ⟨"report.pdf", "application/pdf"⟩ "data:application/pdf;base64,x" initialAppState
      = initialAppState :=
  ⟨accept_attribute_image_prefix_rule.2.1 ⟨"anim.gif", "image/gif"⟩
      "data:image/gif;base64,R0lGOD" initialAppState (by decide),
   accept_attribute_image_prefix_rule.2.2 ⟨"report.pdf", "application/pdf"⟩
      "data:application/pdf;base64,x" initialAppState (by decide)⟩

/-- C10: resetting the styling writes only the settings cell; the loaded
image reference, the display name, the export scale and the
export-in-progress flag (and the remaining state cells) are unchanged. -/
theorem reset_mutates_only_settings (s : AppState) :
    (resetSettings s).imageDataUrl = s.imageDataUrl ∧
    (resetSettings s).imageName = s.imageName ∧
    (resetSettings s).exportScale = s.exportScale ∧
    (resetSettings s).isExporting = s.isExporting ∧
    (resetSettings s).isDragging = s.isDragging ∧
    (resetSettings s).hasPreview = s.hasPreview :=
  ⟨rfl, rfl, rfl, rfl, rfl, rfl⟩

end SSBeautify
